import Mathlib

/-!
Shallow embedding of the MeshCore SMS gateway (`src/gateway.py` and the
variant `src/custom_components/meshcore_sms/gateway.py`): rate limiting,
message history, persistence, the SMS command handler and the inbound
SMS webhook handler, together with theorems about the routing and
rate-limiting behaviour.
-/

namespace MeshcoreSMS

/-- A clock instant, split into the calendar day and the time within the
day, modelling the `datetime` values produced by `dt_util.now()`; only the
`.date()` component (here `day`) is ever compared by the gateway. -/
structure Timestamp where
  day : Nat
  minute : Nat
deriving DecidableEq

/-- One entry of `self.message_history`.  Outgoing entries produced by
`send_sms` carry `sender` and `sid`; incoming entries produced by
`_handle_webhook` leave them absent. -/
structure HistoryEntry where
  timestamp : Timestamp
  direction : String
  phone : String
  message : String
  sender : Option String := none
  sid : Option String := none
deriving DecidableEq

/-- The configuration fields of the gateway consulted by the routing and
rate-limiting code (`config_entry.data`). -/
structure GatewayConfig where
  daily_limit : Nat
  enable_broadcast : Bool
  delivery_confirmation : Bool
  bot_name : String := "sms_bot"
  from_number : String := ""
deriving DecidableEq

/-- The JSON blob written by `_async_save_data` and read by
`_async_load_data`.  `last_reset` is optional because `_async_load_data`
guards on its presence (`if last_reset:`); `_async_save_data` always
writes it. -/
structure StoredData where
  daily_counts : List (String × Nat)
  message_history : List HistoryEntry
  last_reset : Option Timestamp
deriving DecidableEq

/-- The mutable per-gateway state: `self.daily_counts` (a
`defaultdict(int)`, modelled as an association list whose lookup defaults
to 0), `self.last_reset` and `self.message_history`. -/
structure GatewayState where
  daily_counts : List (String × Nat)
  last_reset : Timestamp
  message_history : List HistoryEntry
deriving DecidableEq

/-- External actions performed by the gateway: a direct mesh send
(`_send_meshcore_message`), a channel broadcast (`_broadcast_to_meshcore`),
a Twilio API call (`twilio_client.messages.create`), a bus event, and a
write of the storage blob. -/
inductive Effect where
  | meshSend (recipient message : String)
  | meshBroadcast (message : String)
  | carrierSend (from_number to_number body : String)
  | fireEvent (name : String)
  | saveStore (d : StoredData)
deriving DecidableEq

/-- The characters Python's `str.split(None)` splits on (ASCII whitespace). -/
def isPySpace (c : Char) : Bool :=
  c = ' ' || c = '\t' || c = '\n' || c = '\r' || c = '\x0b' || c = '\x0c'

/-- Core of Python's `str.split(None, maxsplit)` on a character list: skip
leading whitespace; while splits remain, emit the next maximal
non-whitespace token; once `maxsplit` splits have been made, the remainder
(leading whitespace stripped) is the final part. -/
def pySplitCore : List Char → Nat → List (List Char)
  | l, 0 =>
    let l' := l.dropWhile isPySpace
    if l'.isEmpty then [] else [l']
  | l, n + 1 =>
    let l' := l.dropWhile isPySpace
    if l'.isEmpty then []
    else
      l'.takeWhile (fun c => !isPySpace c) ::
        pySplitCore (l'.dropWhile fun c => !isPySpace c) n

/-- Python `message.split(None, 2)` (used by `_handle_sms_command`). -/
def pySplit2 (s : String) : List String :=
  (pySplitCore s.data 2).map String.mk

/-- Python `message_body.split(None, 1)` (used by `_handle_webhook`). -/
def pySplit1 (s : String) : List String :=
  (pySplitCore s.data 1).map String.mk

/-- Python `s[-n:]`: the last `n` characters (the whole string when it is
shorter). -/
def takeLast (s : String) (n : Nat) : String :=
  String.mk (s.data.drop (s.data.length - n))

/-- Python `s[:n]`: the first `n` characters. -/
def strTake (s : String) (n : Nat) : String :=
  String.mk (s.data.take n)

/-- Python `s[n:]`: everything after the first `n` characters. -/
def strDrop (s : String) (n : Nat) : String :=
  String.mk (s.data.drop n)

/-- Python `s.startswith(p)`. -/
def strStartsWith (s p : String) : Bool :=
  p.data.isPrefixOf s.data

/-- Reading `self.daily_counts[k]` from the `defaultdict(int)`: the stored
count, defaulting to 0 for an absent key. -/
def lookupCount : List (String × Nat) → String → Nat
  | [], _ => 0
  | (k', v) :: t, k => if k' = k then v else lookupCount t k

/-- Writing `self.daily_counts[k] = v`. -/
def setCount : List (String × Nat) → String → Nat → List (String × Nat)
  | [], k, v => [(k, v)]
  | (k', v') :: t, k, v =>
    if k' = k then (k, v) :: t else (k', v') :: setCount t k v

/-- `self.daily_counts[k] += 1`. -/
def incrCount (m : List (String × Nat)) (k : String) : List (String × Nat) :=
  setCount m k (lookupCount m k + 1)

/-- What Python's `\d` matches in a `str` pattern (no `re.ASCII` flag):
any Unicode decimal digit, i.e. the code points of general category Nd
(Unicode 14.0, the table shipped with CPython 3.11), given here as the
full list of Nd ranges over the code point value. -/
def isPyDigit (c : Char) : Bool :=
  let n := c.toNat
  (48 ≤ n && n ≤ 57)
    || (1632 ≤ n && n ≤ 1641)
    || (1776 ≤ n && n ≤ 1785)
    || (1984 ≤ n && n ≤ 1993)
    || (2406 ≤ n && n ≤ 2415)
    || (2534 ≤ n && n ≤ 2543)
    || (2662 ≤ n && n ≤ 2671)
    || (2790 ≤ n && n ≤ 2799)
    || (2918 ≤ n && n ≤ 2927)
    || (3046 ≤ n && n ≤ 3055)
    || (3174 ≤ n && n ≤ 3183)
    || (3302 ≤ n && n ≤ 3311)
    || (3430 ≤ n && n ≤ 3439)
    || (3558 ≤ n && n ≤ 3567)
    || (3664 ≤ n && n ≤ 3673)
    || (3792 ≤ n && n ≤ 3801)
    || (3872 ≤ n && n ≤ 3881)
    || (4160 ≤ n && n ≤ 4169)
    || (4240 ≤ n && n ≤ 4249)
    || (6112 ≤ n && n ≤ 6121)
    || (6160 ≤ n && n ≤ 6169)
    || (6470 ≤ n && n ≤ 6479)
    || (6608 ≤ n && n ≤ 6617)
    || (6784 ≤ n && n ≤ 6793)
    || (6800 ≤ n && n ≤ 6809)
    || (6992 ≤ n && n ≤ 7001)
    || (7088 ≤ n && n ≤ 7097)
    || (7232 ≤ n && n ≤ 7241)
    || (7248 ≤ n && n ≤ 7257)
    || (42528 ≤ n && n ≤ 42537)
    || (43216 ≤ n && n ≤ 43225)
    || (43264 ≤ n && n ≤ 43273)
    || (43472 ≤ n && n ≤ 43481)
    || (43504 ≤ n && n ≤ 43513)
    || (43600 ≤ n && n ≤ 43609)
    || (44016 ≤ n && n ≤ 44025)
    || (65296 ≤ n && n ≤ 65305)
    || (66720 ≤ n && n ≤ 66729)
    || (68912 ≤ n && n ≤ 68921)
    || (69734 ≤ n && n ≤ 69743)
    || (69872 ≤ n && n ≤ 69881)
    || (69942 ≤ n && n ≤ 69951)
    || (70096 ≤ n && n ≤ 70105)
    || (70384 ≤ n && n ≤ 70393)
    || (70736 ≤ n && n ≤ 70745)
    || (70864 ≤ n && n ≤ 70873)
    || (71248 ≤ n && n ≤ 71257)
    || (71360 ≤ n && n ≤ 71369)
    || (71472 ≤ n && n ≤ 71481)
    || (71904 ≤ n && n ≤ 71913)
    || (72016 ≤ n && n ≤ 72025)
    || (72784 ≤ n && n ≤ 72793)
    || (73040 ≤ n && n ≤ 73049)
    || (73120 ≤ n && n ≤ 73129)
    || (92768 ≤ n && n ≤ 92777)
    || (92864 ≤ n && n ≤ 92873)
    || (93008 ≤ n && n ≤ 93017)
    || (120782 ≤ n && n ≤ 120831)
    || (123200 ≤ n && n ≤ 123209)
    || (123632 ≤ n && n ≤ 123641)
    || (125264 ≤ n && n ≤ 125273)
    || (130032 ≤ n && n ≤ 130041)

/-- The body `\+?[1-9]\d\x7b1,14\x7d` of `PHONE_REGEX`, matched against an
entire character sequence: an optional leading `+`, then one character in
the ASCII range `1`-`9` (a literal character class), then 1 to 14 further
Unicode decimal digits. -/
def phone_regex_body (l : List Char) : Bool :=
  match l with
  | [] => false
  | c :: cs =>
    match (if c = '+' then cs else c :: cs) with
    | [] => false
    | d :: ds =>
      ('1' ≤ d && d ≤ '9') && ds.all isPyDigit
        && (1 ≤ ds.length && ds.length ≤ 14)

/-- `PHONE_REGEX = re.compile(r'^\+?[1-9]\d\x7b1,14\x7d$')`, tested with
`PHONE_REGEX.match` (Python semantics): without `re.MULTILINE`, `$`
matches at the end of the string or just before one trailing newline, so
the regex accepts the body alone or the body followed by a single final
`'\n'`. -/
def phone_regex_match (s : String) : Bool :=
  phone_regex_body s.data ||
    (s.data.getLast? == some '\n' && phone_regex_body s.data.dropLast)

/-- `self.max_history`. -/
def max_history : Nat := 50

/-- `_check_rate_limit`: `self.daily_counts[sender_id] < self.config[CONF_DAILY_LIMIT]`. -/
def check_rate_limit (cfg : GatewayConfig) (s : GatewayState) (sender_id : String) : Bool :=
  lookupCount s.daily_counts sender_id < cfg.daily_limit

/-- `_async_save_data`: the blob holds the counts, the history truncated
to its last `max_history` entries (Python `[-50:]`), and `last_reset`. -/
def save_data (s : GatewayState) : StoredData :=
  { daily_counts := s.daily_counts
    message_history := s.message_history.drop (s.message_history.length - max_history)
    last_reset := some s.last_reset }

/-- `_async_load_data`: when the store holds a blob, install its counts
and history, then clear the counts (and refresh `last_reset`) exactly when
the current date is strictly later than the stored `last_reset` date. -/
def load_data (now : Timestamp) (s : GatewayState) (data : Option StoredData) : GatewayState :=
  match data with
  | none => s
  | some d =>
    let s1 := { s with daily_counts := d.daily_counts, message_history := d.message_history }
    match d.last_reset with
    | none => s1
    | some lr =>
      if lr.day < now.day then
        { s1 with daily_counts := [], last_reset := now }
      else s1

/-- `send_sms` of `src/gateway.py`.  The Twilio call outcome is an input:
`some sid` models a successful `messages.create` (returning that message
sid), `none` models a raised `TwilioException`.  On success the outgoing
entry is appended to the history and the sent event fired; in both cases
the carrier call itself was attempted. -/
def send_sms (cfg : GatewayConfig) (s : GatewayState) (phone_number message sender : String)
    (twilioResult : Option String) (now : Timestamp) :
    Bool × GatewayState × List Effect :=
  let body := "[MeshCore:" ++ sender ++ "] " ++ message
  match twilioResult with
  | some sid =>
    (true,
      { s with message_history := s.message_history ++
          [{ timestamp := now, direction := "outgoing", phone := phone_number,
             message := message, sender := some sender, sid := some sid }] },
      [Effect.carrierSend cfg.from_number phone_number body,
       Effect.fireEvent "meshcore-sms_sms_sent"])
  | none => (false, s, [Effect.carrierSend cfg.from_number phone_number body])

/-- `_handle_sms_command` of `src/gateway.py`: parse `SMS <phone> <message>`
with `message.split(None, 2)`; reject a short command, then an invalid
phone number, then a sender over the daily limit; otherwise attempt the
carrier send and, only on its success, increment the sender's daily count,
reply with the masked phone number and save. -/
def handle_sms_command (cfg : GatewayConfig) (s : GatewayState) (sender_id message : String)
    (twilioResult : Option String) (now : Timestamp) : GatewayState × List Effect :=
  let parts := pySplit2 message
  if parts.length < 3 then
    (s, [Effect.meshSend sender_id
      "❌ Invalid format. Use: SMS <phone> <message>\nExample: SMS +1234567890 Hello world"])
  else
    let phone_number := parts.getD 1 ""
    let sms_content := parts.getD 2 ""
    if phone_regex_match phone_number = false then
      (s, [Effect.meshSend sender_id ("❌ Invalid phone number format: " ++ phone_number)])
    else if check_rate_limit cfg s sender_id = false then
      (s, [Effect.meshSend sender_id
        ("⚠️ Daily limit reached (" ++ toString cfg.daily_limit ++ " messages)")])
    else
      let r := send_sms cfg s phone_number sms_content sender_id twilioResult now
      if r.fst then
        let s2 : GatewayState :=
          { r.snd.fst with daily_counts := incrCount r.snd.fst.daily_counts sender_id }
        let masked := strTake phone_number 3 ++ "***" ++ takeLast phone_number 4
        (s2, r.snd.snd ++
          [Effect.meshSend sender_id ("✅ SMS sent to " ++ masked),
           Effect.saveStore (save_data s2)])
      else
        (r.snd.fst, r.snd.snd ++
          [Effect.meshSend sender_id "❌ Failed to send SMS. Please try again."])

/-- The recipient-parsing step shared verbatim by both `_handle_webhook`
variants: a body starting with `@` whose `split(None, 1)` yields two parts
names a direct recipient (the first token without its `@`) and the
remainder is the message; any other body is a broadcast candidate whose
message is the entire original body. -/
def parse_recipient (message_body : String) : String × String :=
  if strStartsWith message_body "@" then
    let parts := pySplit1 message_body
    if parts.length = 2 then
      (strDrop (parts.getD 0 "") 1, parts.getD 1 "")
    else
      ("broadcast", message_body)
  else
    ("broadcast", message_body)

/-- `_handle_webhook` of `src/gateway.py`.  `from_number`/`message_body`
model `data.get(...)` (`none` = field absent); an absent or empty value
aborts.  Otherwise the inbound entry is appended to the history, the body
routed (channel broadcast when the recipient is `"broadcast"` and
broadcasting is enabled, a direct mesh send to the parsed recipient
otherwise), an unconditional delivery confirmation SMS is attempted when
the flag is set, the received event is fired and the state saved. -/
def handle_webhook (cfg : GatewayConfig) (s : GatewayState)
    (from_number message_body : Option String) (confirmResult : Option String)
    (now : Timestamp) : GatewayState × List Effect :=
  let fromN := from_number.getD ""
  let body := message_body.getD ""
  if fromN = "" ∨ body = "" then (s, [])
  else
    let s1 := { s with message_history := s.message_history ++
      [{ timestamp := now, direction := "incoming", phone := fromN, message := body }] }
    let pr := parse_recipient body
    let meshText := "SMS from " ++ takeLast fromN 4 ++ ": " ++ pr.snd
    let routeEffs :=
      if pr.fst = "broadcast" ∧ cfg.enable_broadcast = true then
        [Effect.meshBroadcast meshText]
      else
        [Effect.meshSend pr.fst meshText]
    let confirmStep :=
      if cfg.delivery_confirmation then
        let r := send_sms cfg s1 fromN "Message delivered to MeshCore network" "system"
          confirmResult now
        (r.snd.fst, r.snd.snd)
      else (s1, [])
    (confirmStep.fst,
      routeEffs ++ confirmStep.snd ++
        [Effect.fireEvent "meshcore-sms_sms_received",
         Effect.saveStore (save_data confirmStep.fst)])

/-- `send_sms` of `src/custom_components/meshcore_sms/gateway.py`: the
composed body tags the sender (`service_call` becomes `HA`, `system`
becomes `System`, a leading `@` is stripped, anything else is cut to 10
characters); this variant keeps no history. -/
def send_sms_cc (cfg : GatewayConfig) (phone message sender : String)
    (twilioResult : Option String) : Bool × List Effect :=
  let tag :=
    if sender = "service_call" then "HA"
    else if sender = "system" then "System"
    else if strStartsWith sender "@" then strDrop sender 1
    else strTake sender 10
  (twilioResult.isSome,
    [Effect.carrierSend cfg.from_number phone ("[" ++ tag ++ "] " ++ message)])

/-- `_handle_webhook` of `src/custom_components/meshcore_sms/gateway.py`:
same recipient parsing, but a broadcast candidate is silently dropped (no
effect) when broadcasting is disabled; the delivery confirmation SMS is
still attempted whenever its flag is set; no history is kept. -/
def handle_webhook_cc (cfg : GatewayConfig) (from_number message_body : Option String)
    (confirmResult : Option String) : List Effect :=
  let fromN := from_number.getD ""
  let body := message_body.getD ""
  if fromN = "" ∨ body = "" then []
  else
    let pr := parse_recipient body
    let meshText := "SMS from " ++ takeLast fromN 4 ++ ": " ++ pr.snd
    let routeEffs :=
      if pr.fst = "broadcast" then
        if cfg.enable_broadcast then [Effect.meshBroadcast meshText] else []
      else
        [Effect.meshSend pr.fst meshText]
    let confirmEffs :=
      if cfg.delivery_confirmation then
        (send_sms_cc cfg fromN "Message delivered to MeshCore network" "system"
          confirmResult).snd
      else []
    routeEffs ++ confirmEffs

/-- `_async_daily_reset`: clear all counts, refresh `last_reset`, save. -/
def daily_reset (s : GatewayState) (now : Timestamp) : GatewayState × List Effect :=
  let s1 := { s with daily_counts := [], last_reset := now }
  (s1, [Effect.saveStore (save_data s1)])

/-- The state-mutating operations of the rate-limited SMS path: one
`SMS <phone> <message>` command (with its Twilio outcome and clock
reading) or one daily reset tick. -/
inductive GwOp where
  | smsCmd (sender_id message : String) (twilioResult : Option String) (now : Timestamp)
  | reset (now : Timestamp)

/-- The state reached after one operation. -/
def run_op (cfg : GatewayConfig) (s : GatewayState) : GwOp → GatewayState
  | GwOp.smsCmd sender_id message r now =>
    (handle_sms_command cfg s sender_id message r now).fst
  | GwOp.reset now => (daily_reset s now).fst

/-- The state reached after a sequence of operations. -/
def run_ops (cfg : GatewayConfig) (s : GatewayState) (ops : List GwOp) : GatewayState :=
  ops.foldl (run_op cfg) s

/-- A sequence of daily-reset calls at the given instants. -/
def run_resets (s : GatewayState) (ts : List Timestamp) : GatewayState :=
  ts.foldl (fun s' t => (daily_reset s' t).fst) s

/-- Whether an effect is a carrier (Twilio) send attempt. -/
def isCarrierSend : Effect → Bool
  | Effect.carrierSend _ _ _ => true
  | _ => false

/-- Whether any effect in the list is a carrier send attempt. -/
def hasCarrierSend (l : List Effect) : Bool :=
  l.any isCarrierSend

/-- Modelled from the spec: the phone-number pattern in the spec's words,
"optional leading +, then 2–15 digits, not starting with 0" — written
independently of `phone_regex_match` to compare the validator against the
specified pattern. -/
def phone_pattern_spec (s : String) : Prop :=
  let digits := (if strStartsWith s "+" then strDrop s 1 else s).data
  2 ≤ digits.length ∧ digits.length ≤ 15 ∧
    digits.all Char.isDigit = true ∧ digits.getD 0 '0' ≠ '0'

lemma char_one_to_nine_iff (d : Char) :
    ('1' ≤ d ∧ d ≤ '9') ↔ (d.isDigit = true ∧ d ≠ '0') := by
  rcases d with ⟨⟨⟨n, hn⟩⟩, hv⟩
  have e1 : ('1' : Char).val.toBitVec.toNat = 49 := rfl
  have e9 : ('9' : Char).val.toBitVec.toNat = 57 := rfl
  have e0 : ('0' : Char).val.toNat = 48 := rfl
  have e48 : (UInt32.toBitVec 48).toNat = 48 := rfl
  have e57 : (UInt32.toBitVec 57).toNat = 57 := rfl
  have en : ({ toBitVec := { toFin := ⟨n, hn⟩ } } : UInt32).toNat = n := rfl
  simp only [Bool.and_eq_true, decide_eq_true_eq, Char.isDigit, Char.le_def, UInt32.le_def,
    BitVec.le_def, ne_eq, Char.ext_iff, UInt32.ext_iff,
    BitVec.toNat_eq, ge_iff_le, BitVec.toNat_ofFin, e1, e9, e0, e48, e57, en]
  omega

lemma ascii_digit_isPyDigit (c : Char) (h : c.isDigit = true) : isPyDigit c = true := by
  rcases c with ⟨⟨⟨n, hn⟩⟩, hv⟩
  have e48 : (UInt32.toBitVec 48).toNat = 48 := rfl
  have e57 : (UInt32.toBitVec 57).toNat = 57 := rfl
  have en : ({ toBitVec := { toFin := ⟨n, hn⟩ } } : UInt32).toNat = n := rfl
  simp only [Char.isDigit, ge_iff_le, UInt32.le_def, BitVec.le_def, Bool.and_eq_true,
    decide_eq_true_eq, BitVec.toNat_ofFin, e48, e57] at h
  have hd : (decide (48 ≤ n) && decide (n ≤ 57)) = true := by
    simp only [Bool.and_eq_true, decide_eq_true_eq]
    omega
  simp only [isPyDigit, Char.toNat, en, hd, Bool.true_or]

lemma phone_body_tail (d : Char) (ds : List Char)
    (h1 : 2 ≤ (d :: ds).length) (h2 : (d :: ds).length ≤ 15)
    (h3 : (d :: ds).all Char.isDigit = true) (h4 : (d :: ds).getD 0 '0' ≠ '0') :
    (decide ('1' ≤ d) && decide (d ≤ '9') && ds.all isPyDigit &&
      (decide (1 ≤ ds.length) && decide (ds.length ≤ 14))) = true := by
  have h3' := List.all_eq_true.mp h3
  have hd : d.isDigit = true := h3' d (List.mem_cons_self d ds)
  have hne : d ≠ '0' := by simpa using h4
  obtain ⟨g1, g2⟩ := (char_one_to_nine_iff d).mpr ⟨hd, hne⟩
  have hl1 : 2 ≤ ds.length + 1 := by simpa using h1
  have hl2 : ds.length + 1 ≤ 15 := by simpa using h2
  simp only [Bool.and_eq_true, decide_eq_true_eq, List.all_eq_true]
  exact ⟨⟨⟨g1, g2⟩, fun x hx => ascii_digit_isPyDigit x (h3' x (List.mem_cons_of_mem d hx))⟩,
    by omega, by omega⟩

lemma phone_pattern_spec_sub (p : String) (h : phone_pattern_spec p) :
    phone_regex_match p = true := by
  suffices hb : phone_regex_body p.data = true by
    simp [phone_regex_match, hb]
  obtain ⟨l⟩ := p
  cases l with
  | nil =>
    exfalso
    obtain ⟨h1, -, -, -⟩ := h
    revert h1
    decide
  | cons c cs =>
    have hr : phone_regex_body (c :: cs) =
        (match (if c = '+' then cs else c :: cs) with
          | [] => false
          | d :: ds => decide ('1' ≤ d) && decide (d ≤ '9') && ds.all isPyDigit &&
              (decide (1 ≤ ds.length) && decide (ds.length ≤ 14))) := rfl
    by_cases hc : c = '+'
    · subst hc
      have hss : strStartsWith ⟨'+' :: cs⟩ "+" = true := by
        show ['+'].isPrefixOf ('+' :: cs) = true
        simp [List.isPrefixOf]
      have hsd : (strDrop ⟨'+' :: cs⟩ 1).data = cs := rfl
      simp only [phone_pattern_spec, hss, if_true, hsd] at h
      obtain ⟨h1, h2, h3, h4⟩ := h
      rw [hr, if_pos rfl]
      cases cs with
      | nil => exact absurd h1 (by decide)
      | cons d ds => exact phone_body_tail d ds h1 h2 h3 h4
    · have hss : strStartsWith ⟨c :: cs⟩ "+" = false := by
        simp [strStartsWith, List.isPrefixOf, hc]
        intro he
        exact absurd he.symm hc
      simp only [phone_pattern_spec, hss, Bool.false_eq_true, if_false] at h
      obtain ⟨h1, h2, h3, h4⟩ := h
      rw [hr, if_neg hc]
      exact phone_body_tail c cs h1 h2 h3 h4

/-- Claim C3, counterexample: recording one more entry on a history that
already holds 50 leaves 51 entries in the in-memory buffer, so the buffer
does not hold at most N = 50 entries after each `record_history`
operation. -/
theorem history_append_exceeds_fifty :
    ((send_sms { daily_limit := 50, enable_broadcast := true, delivery_confirmation := false }
        { daily_counts := [], last_reset := ⟨0, 0⟩,
          message_history := List.replicate 50
            { timestamp := ⟨0, 0⟩, direction := "incoming", phone := "+1", message := "x" } }
        "+15551234567" "hi" "alice" (some "SM1") ⟨0, 1⟩).snd.fst.message_history).length = 51 := by
  simp [send_sms]

/-- Claim C3 (amended): the persisted snapshot, not the in-memory list, is
bounded: `save` truncates the history to its last 50 entries (a suffix of
the buffer, so the oldest entries are the ones dropped and the surviving
order is preserved), is the identity on histories of at most 50 entries,
and any `load` of a saved snapshot restores at most 50 entries. -/
theorem history_truncated_on_save (s : GatewayState) (now : Timestamp) (s2 : GatewayState) :
    (save_data s).message_history.length ≤ max_history ∧
    List.IsSuffix (save_data s).message_history s.message_history ∧
    (s.message_history.length ≤ max_history →
      (save_data s).message_history = s.message_history) ∧
    (load_data now s2 (some (save_data s))).message_history.length ≤ max_history := by
  refine ⟨?_, ?_, ?_, ?_⟩
  · simp only [save_data, List.length_drop]
    omega
  · exact List.drop_suffix _ _
  · intro h
    simp only [save_data]
    rw [show s.message_history.length - max_history = 0 by omega, List.drop_zero]
  · simp only [save_data, load_data]
    split
    · simp only [List.length_drop]; omega
    · simp only [List.length_drop]; omega

/-- Witness for `history_truncated_on_save` at a concrete one-entry
history. -/
theorem history_truncated_on_save_witness :
    (save_data { daily_counts := [], last_reset := ⟨0, 0⟩, message_history :=
        [{ timestamp := ⟨0, 0⟩, direction := "incoming", phone := "+1",
           message := "x" }] }).message_history.length ≤ max_history ∧
    (save_data { daily_counts := [], last_reset := ⟨0, 0⟩, message_history :=
        [{ timestamp := ⟨0, 0⟩, direction := "incoming", phone := "+1",
           message := "x" }] }).message_history =
      [{ timestamp := ⟨0, 0⟩, direction := "incoming", phone := "+1", message := "x" }] :=
  ⟨(history_truncated_on_save
      { daily_counts := [], last_reset := ⟨0, 0⟩, message_history :=
        [{ timestamp := ⟨0, 0⟩, direction := "incoming", phone := "+1", message := "x" }] }
      ⟨0, 0⟩
      { daily_counts := [], last_reset := ⟨0, 0⟩, message_history := [] }).1,
   (history_truncated_on_save
      { daily_counts := [], last_reset := ⟨0, 0⟩, message_history :=
        [{ timestamp := ⟨0, 0⟩, direction := "incoming", phone := "+1", message := "x" }] }
      ⟨0, 0⟩
      { daily_counts := [], last_reset := ⟨0, 0⟩, message_history := [] }).2.2.1 (by decide)⟩

/-- Claim C6, counterexample: with 51 history entries in memory, `save`
followed by `load` on the same calendar day does not restore the history
identically — the oldest entry is lost to the save-time truncation. -/
theorem save_load_loses_old_history :
    (let e : HistoryEntry :=
       { timestamp := ⟨9, 0⟩, direction := "incoming", phone := "+1", message := "x" };
     let s : GatewayState :=
       { daily_counts := [("alice", 3)], last_reset := ⟨10, 0⟩,
         message_history := List.replicate 51 e };
     (load_data ⟨10, 5⟩ s (some (save_data s))).message_history ≠ s.message_history) := by
  decide

/-- Claim C6 (amended): `save` followed by `load` with no intervening
calendar-day change restores the counts identically and the history up to
the save-time truncation to the last 50 entries; when the history held at
most 50 entries the whole state is restored identically. -/
theorem save_load_roundtrip (s : GatewayState) (now : Timestamp)
    (h : ¬ s.last_reset.day < now.day) :
    (load_data now s (some (save_data s))).daily_counts = s.daily_counts ∧
    (load_data now s (some (save_data s))).message_history =
      s.message_history.drop (s.message_history.length - max_history) ∧
    (s.message_history.length ≤ max_history → load_data now s (some (save_data s)) = s) := by
  refine ⟨?_, ?_, fun hlen => ?_⟩
  · simp [load_data, save_data, if_neg h]
  · simp [load_data, save_data, if_neg h]
  · simp only [load_data, save_data]
    rw [if_neg h, show s.message_history.length - max_history = 0 by omega, List.drop_zero]

/-- Witness for `save_load_roundtrip` at a concrete same-day state. -/
theorem save_load_roundtrip_witness :
    (¬ (⟨10, 0⟩ : Timestamp).day < (⟨10, 5⟩ : Timestamp).day) ∧
    ((load_data ⟨10, 5⟩
        { daily_counts := [("alice", 3)], last_reset := ⟨10, 0⟩, message_history := [] }
        (some (save_data
          { daily_counts := [("alice", 3)], last_reset := ⟨10, 0⟩, message_history := [] }))).daily_counts =
      [("alice", 3)] ∧
      load_data ⟨10, 5⟩
        { daily_counts := [("alice", 3)], last_reset := ⟨10, 0⟩, message_history := [] }
        (some (save_data
          { daily_counts := [("alice", 3)], last_reset := ⟨10, 0⟩, message_history := [] })) =
        { daily_counts := [("alice", 3)], last_reset := ⟨10, 0⟩, message_history := [] }) := by
  refine ⟨by decide, ?_⟩
  have h := save_load_roundtrip
    { daily_counts := [("alice", 3)], last_reset := ⟨10, 0⟩, message_history := [] }
    ⟨10, 5⟩ (by decide)
  exact ⟨h.1, h.2.2 (by decide)⟩

/-- Claim C7: for every stored snapshot carrying a `last_reset` date,
`load` clears all per-sender daily counts exactly when that date is
strictly before the current date, and restores the stored counts unchanged
otherwise (in particular when `last_reset` is on the current date). -/
theorem load_resets_iff_day_advanced (now : Timestamp) (s : GatewayState) (d : StoredData)
    (t : Timestamp) (h : d.last_reset = some t) :
    (load_data now s (some d)).daily_counts =
      (if t.day < now.day then [] else d.daily_counts) := by
  rcases d with ⟨dc, mh, lr⟩
  simp only at h
  subst h
  show (load_data now s (some { daily_counts := dc, message_history := mh, last_reset := some t })).daily_counts = _
  simp only [load_data]
  split <;> rfl

/-- Witness for `load_resets_iff_day_advanced` at a concrete snapshot
whose stored date lies strictly before the current date. -/
theorem load_resets_iff_day_advanced_witness :
    (load_data ⟨5, 0⟩
        { daily_counts := [], last_reset := ⟨0, 0⟩, message_history := [] }
        (some { daily_counts := [("a", 7)], message_history := [], last_reset := some ⟨4, 0⟩ })).daily_counts =
      (if (4 : Nat) < 5 then [] else [("a", 7)]) :=
  load_resets_iff_day_advanced ⟨5, 0⟩
    { daily_counts := [], last_reset := ⟨0, 0⟩, message_history := [] }
    { daily_counts := [("a", 7)], message_history := [], last_reset := some ⟨4, 0⟩ }
    ⟨4, 0⟩ rfl

/-- Claim C1, evaluated at the failing input: for the inbound SMS body
`"just a note"` with broadcasting disabled, `_handle_webhook` of
`src/gateway.py` still performs a mesh send — a direct node send to the
literal recipient `"broadcast"` — while appending the message to history;
the `custom_components` variant instead drops the message entirely
(producing no effect at all), which is the behaviour the claim
describes. -/
theorem broadcast_disabled_still_mesh_sends :
    (let cfg : GatewayConfig :=
       { daily_limit := 50, enable_broadcast := false, delivery_confirmation := false };
     let s : GatewayState := { daily_counts := [], last_reset := ⟨0, 0⟩, message_history := [] };
     let res := handle_webhook cfg s (some "+15551234567") (some "just a note") none ⟨0, 1⟩;
     Effect.meshSend "broadcast" "SMS from 4567: just a note" ∈ res.snd ∧
     res.fst.message_history =
       [{ timestamp := ⟨0, 1⟩, direction := "incoming", phone := "+15551234567",
          message := "just a note" }] ∧
     handle_webhook_cc cfg (some "+15551234567") (some "just a note") none = []) := by
  decide

/-- Claim C5, counterexample: with broadcasting disabled and
`delivery_confirmation` enabled, the inbound body `"just a note"` is
dropped (no mesh effect), yet the confirmation SMS "Message delivered to
MeshCore network" is still sent to the originating number. -/
theorem confirmation_sent_despite_drop :
    (let cfg : GatewayConfig :=
       { daily_limit := 50, enable_broadcast := false, delivery_confirmation := true,
         from_number := "+19995550000" };
     handle_webhook_cc cfg (some "+15551234567") (some "just a note") (some "SM1") =
       [Effect.carrierSend "+19995550000" "+15551234567"
          "[System] Message delivered to MeshCore network"]) := by
  decide

/-- Claim C5 (amended): in both webhook variants, for any payload with a
non-empty From and Body, the confirmation SMS is attempted exactly when
the `delivery_confirmation` flag is enabled — independent of whether the
message was broadcast, sent directly, or dropped. -/
theorem confirmation_iff_flag (cfg : GatewayConfig) (s : GatewayState)
    (fromN body : String) (r : Option String) (now : Timestamp)
    (hf : fromN ≠ "") (hb : body ≠ "") :
    hasCarrierSend (handle_webhook cfg s (some fromN) (some body) r now).snd =
      cfg.delivery_confirmation ∧
    hasCarrierSend (handle_webhook_cc cfg (some fromN) (some body) r) =
      cfg.delivery_confirmation := by
  have hguard : ¬ ((some fromN).getD "" = "" ∨ (some body).getD "" = "") := by
    simp [hf, hb]
  rcases cfg with ⟨lim, eb, dc, bn, fn⟩
  constructor
  · simp only [handle_webhook, if_neg hguard, hasCarrierSend, List.any_append]
    cases dc <;> cases r <;> cases eb <;>
      split <;> simp [send_sms, isCarrierSend]
  · simp only [handle_webhook_cc, if_neg hguard, hasCarrierSend, List.any_append]
    cases dc <;> cases r <;> cases eb <;>
      split <;> simp [send_sms_cc, isCarrierSend]

/-- Witness for `confirmation_iff_flag` at a concrete payload. -/
theorem confirmation_iff_flag_witness :
    hasCarrierSend
        (handle_webhook { daily_limit := 50, enable_broadcast := true, delivery_confirmation := true }
          { daily_counts := [], last_reset := ⟨0, 0⟩, message_history := [] }
          (some "+15551234567") (some "just a note") (some "SM1") ⟨0, 1⟩).snd = true :=
  (confirmation_iff_flag
    { daily_limit := 50, enable_broadcast := true, delivery_confirmation := true }
    { daily_counts := [], last_reset := ⟨0, 0⟩, message_history := [] }
    "+15551234567" "just a note" (some "SM1") ⟨0, 1⟩ (by decide) (by decide)).1

/-- Claim C10: an inbound body that starts with `@` but consists of a
single whitespace-delimited token is not treated as naming a recipient:
the parse falls back to the broadcast path and the message is the entire
original body including the `@` token, which (with broadcasting enabled)
is what gets broadcast. -/
theorem single_token_at_body_broadcasts (body : String)
    (h1 : strStartsWith body "@" = true) (h2 : (pySplit1 body).length = 1) :
    parse_recipient body = ("broadcast", body) ∧
    ∀ (cfg : GatewayConfig) (s : GatewayState) (fromN : String) (r : Option String)
      (now : Timestamp), cfg.enable_broadcast = true → fromN ≠ "" →
      (handle_webhook cfg s (some fromN) (some body) r now).snd.head? =
        some (Effect.meshBroadcast ("SMS from " ++ takeLast fromN 4 ++ ": " ++ body)) := by
  have hb : body ≠ "" := by
    intro he
    subst he
    exact absurd h1 (by decide)
  have hparse : parse_recipient body = ("broadcast", body) := by
    unfold parse_recipient
    rw [if_pos h1, if_neg (by omega)]
  refine ⟨hparse, fun cfg s fromN r now he hf => ?_⟩
  have hguard : ¬ (fromN = "" ∨ body = "") := by
    simp [hf, hb]
  simp only [handle_webhook, Option.getD_some]
  rw [if_neg hguard]
  simp only [hparse]
  rw [if_pos ⟨trivial, he⟩]
  rfl

/-- Witness for `single_token_at_body_broadcasts` at body `"@alice"`. -/
theorem single_token_at_body_broadcasts_witness :
    parse_recipient "@alice" = ("broadcast", "@alice") ∧
    (handle_webhook { daily_limit := 50, enable_broadcast := true, delivery_confirmation := false }
        { daily_counts := [], last_reset := ⟨0, 0⟩, message_history := [] }
        (some "+15551234567") (some "@alice") none ⟨0, 1⟩).snd.head? =
      some (Effect.meshBroadcast ("SMS from " ++ takeLast "+15551234567" 4 ++ ": " ++ "@alice")) := by
  have h := single_token_at_body_broadcasts "@alice" (by decide) (by decide)
  exact ⟨h.1, h.2 _ { daily_counts := [], last_reset := ⟨0, 0⟩, message_history := [] }
    "+15551234567" none ⟨0, 1⟩ rfl (by decide)⟩

lemma run_resets_invariant (t : Timestamp) (h0 : List HistoryEntry) (ts : List Timestamp) :
    ∀ (s : GatewayState), (∀ u ∈ ts, u.day = t.day) →
      s.daily_counts = [] → s.last_reset.day = t.day → s.message_history = h0 →
      (run_resets s ts).daily_counts = [] ∧ (run_resets s ts).last_reset.day = t.day ∧
        (run_resets s ts).message_history = h0 := by
  induction ts with
  | nil => exact fun s _ hc hl hh => ⟨hc, hl, hh⟩
  | cons u ts ih =>
    intro s hall hc hl hh
    have hstep : run_resets s (u :: ts) =
        run_resets ⟨[], u, s.message_history⟩ ts := rfl
    rw [hstep]
    exact ih _ (fun v hv => hall v (List.mem_cons_of_mem u hv)) rfl
      (hall u (List.mem_cons_self u ts)) hh

/-- Claim C9: after a first `reset_daily`, any number of further same-day
calls leave the observable state identical to the state after the single
first call: the counts stay the empty map (every sender reads 0), the
history is untouched, and the `last_reset` date is unchanged. -/
theorem reset_daily_idempotent (s : GatewayState) (t : Timestamp) (ts : List Timestamp)
    (h : ∀ u ∈ ts, u.day = t.day) :
    (run_resets (daily_reset s t).fst ts).daily_counts = (daily_reset s t).fst.daily_counts ∧
    (run_resets (daily_reset s t).fst ts).last_reset.day =
      (daily_reset s t).fst.last_reset.day ∧
    (run_resets (daily_reset s t).fst ts).message_history =
      (daily_reset s t).fst.message_history ∧
    ∀ x, lookupCount (run_resets (daily_reset s t).fst ts).daily_counts x = 0 := by
  have hinv := run_resets_invariant t s.message_history ts (daily_reset s t).fst h rfl rfl rfl
  exact ⟨by rw [hinv.1]; rfl, by rw [hinv.2.1]; rfl, by rw [hinv.2.2]; rfl,
    fun x => by rw [hinv.1]; rfl⟩

/-- Witness for `reset_daily_idempotent`: two extra same-day resets after
a first reset at a concrete state. -/
theorem reset_daily_idempotent_witness :
    (run_resets (daily_reset
        { daily_counts := [("alice", 3)], last_reset := ⟨4, 7⟩, message_history := [] }
        ⟨5, 1⟩).fst [⟨5, 2⟩, ⟨5, 3⟩]).daily_counts =
      (daily_reset { daily_counts := [("alice", 3)], last_reset := ⟨4, 7⟩, message_history := [] }
        ⟨5, 1⟩).fst.daily_counts ∧
    lookupCount (run_resets (daily_reset
        { daily_counts := [("alice", 3)], last_reset := ⟨4, 7⟩, message_history := [] }
        ⟨5, 1⟩).fst [⟨5, 2⟩, ⟨5, 3⟩]).daily_counts "alice" = 0 := by
  have h := reset_daily_idempotent
    { daily_counts := [("alice", 3)], last_reset := ⟨4, 7⟩, message_history := [] }
    ⟨5, 1⟩ [⟨5, 2⟩, ⟨5, 3⟩] (by decide)
  exact ⟨h.1, h.2.2.2 "alice"⟩

lemma send_sms_daily_counts (cfg : GatewayConfig) (s : GatewayState)
    (p m snd : String) (r : Option String) (now : Timestamp) :
    (send_sms cfg s p m snd r now).snd.fst.daily_counts = s.daily_counts := by
  cases r <;> rfl

lemma lookupCount_setCount (m : List (String × Nat)) (k k' : String) (v : Nat) :
    lookupCount (setCount m k v) k' = if k = k' then v else lookupCount m k' := by
  induction m with
  | nil =>
    by_cases h : k = k' <;> simp [setCount, lookupCount, h]
  | cons a t ih =>
    obtain ⟨ak, av⟩ := a
    by_cases h1 : ak = k
    · subst h1
      by_cases h2 : ak = k' <;> simp [setCount, lookupCount, h2]
    · by_cases h2 : ak = k'
      · subst h2
        have : k ≠ ak := fun he => h1 he.symm
        simp [setCount, lookupCount, h1, this]
      · simp [setCount, lookupCount, h1, h2, ih]

lemma lookupCount_incrCount_self (m : List (String × Nat)) (k : String) :
    lookupCount (incrCount m k) k = lookupCount m k + 1 := by
  simp [incrCount, lookupCount_setCount]

lemma lookupCount_incrCount_ne (m : List (String × Nat)) (k k' : String) (h : k ≠ k') :
    lookupCount (incrCount m k) k' = lookupCount m k' := by
  simp [incrCount, lookupCount_setCount, h]

lemma handle_sms_command_count_le (cfg : GatewayConfig) (s : GatewayState)
    (sender msg : String) (r : Option String) (now : Timestamp) (x : String)
    (h : lookupCount s.daily_counts x ≤ cfg.daily_limit) :
    lookupCount (handle_sms_command cfg s sender msg r now).fst.daily_counts x ≤
      cfg.daily_limit := by
  simp only [handle_sms_command]
  split_ifs with h1 h2 h3 h4
  · exact h
  · exact h
  · exact h
  · have hlt : lookupCount s.daily_counts sender < cfg.daily_limit := by
      simp [check_rate_limit] at h3
      exact h3
    show lookupCount
        (incrCount (send_sms cfg s _ _ sender r now).snd.fst.daily_counts sender) x ≤ _
    rw [send_sms_daily_counts]
    by_cases hx : sender = x
    · subst hx
      rw [lookupCount_incrCount_self]
      omega
    · rw [lookupCount_incrCount_ne _ _ _ hx]
      exact h
  · show lookupCount (send_sms cfg s _ _ sender r now).snd.fst.daily_counts x ≤ _
    rw [send_sms_daily_counts]
    exact h

lemma handle_sms_command_at_limit (cfg : GatewayConfig) (s : GatewayState)
    (sender msg : String) (r : Option String) (now : Timestamp)
    (h : cfg.daily_limit ≤ lookupCount s.daily_counts sender) :
    (handle_sms_command cfg s sender msg r now).fst = s ∧
    hasCarrierSend (handle_sms_command cfg s sender msg r now).snd = false := by
  simp only [handle_sms_command]
  split_ifs with h1 h2 h3 h4
  · exact ⟨rfl, rfl⟩
  · exact ⟨rfl, rfl⟩
  · exact ⟨rfl, rfl⟩
  · simp [check_rate_limit] at h3
    omega
  · simp [check_rate_limit] at h3
    omega

lemma run_ops_count_le (cfg : GatewayConfig) (ops : List GwOp) :
    ∀ (s : GatewayState) (x : String), lookupCount s.daily_counts x ≤ cfg.daily_limit →
      lookupCount (run_ops cfg s ops).daily_counts x ≤ cfg.daily_limit := by
  induction ops with
  | nil => exact fun s x h => h
  | cons op ops ih =>
    intro s x h
    have hstep : run_ops cfg s (op :: ops) = run_ops cfg (run_op cfg s op) ops := rfl
    rw [hstep]
    apply ih
    cases op with
    | smsCmd a m r now => exact handle_sms_command_count_le cfg s a m r now x h
    | reset now => exact Nat.zero_le _

/-- Claim C2, counterexample: with `count_today = 0 < daily_limit = 1`
the rate check passes, yet after the SMS command (whose carrier send
fails) the sender's count is still 0 — the operation returned true but did
not increment, so "returns true and increments iff count_today <
daily_limit" is false of the code. -/
theorem check_without_reserve :
    (let cfg : GatewayConfig :=
       { daily_limit := 1, enable_broadcast := true, delivery_confirmation := false };
     let s : GatewayState := { daily_counts := [], last_reset := ⟨0, 0⟩, message_history := [] };
     check_rate_limit cfg s "alice" = true ∧
     (handle_sms_command cfg s "alice" "SMS +15551234567 hi" none ⟨0, 1⟩).fst.daily_counts =
       []) := by
  decide

/-- Claim C2 (amended): the rate check `_check_rate_limit` returns true
iff `count_today < daily_limit` and itself never mutates state; on a
well-formed `SMS` command, when the sender is at or over the limit the
state is unchanged and no carrier send is attempted, and when under the
limit the count is incremented by one exactly when the carrier send
succeeds (and left unchanged when it fails). -/
theorem check_and_reserve_behavior (cfg : GatewayConfig) (s : GatewayState)
    (sender msg : String) (r : Option String) (now : Timestamp)
    (hlen : 3 ≤ (pySplit2 msg).length)
    (hph : phone_regex_match ((pySplit2 msg).getD 1 "") = true) :
    (check_rate_limit cfg s sender = true ↔
      lookupCount s.daily_counts sender < cfg.daily_limit) ∧
    (¬ lookupCount s.daily_counts sender < cfg.daily_limit →
      (handle_sms_command cfg s sender msg r now).fst = s ∧
      hasCarrierSend (handle_sms_command cfg s sender msg r now).snd = false) ∧
    (lookupCount s.daily_counts sender < cfg.daily_limit →
      (handle_sms_command cfg s sender msg r now).fst.daily_counts =
        (match r with
          | some _ => incrCount s.daily_counts sender
          | none => s.daily_counts)) := by
  refine ⟨by simp [check_rate_limit],
    fun hge => handle_sms_command_at_limit cfg s sender msg r now (by omega),
    fun hlt => ?_⟩
  simp only [handle_sms_command]
  rw [if_neg (by omega), if_neg (by simp only [hph]; decide),
    if_neg (by simp [check_rate_limit, hlt])]
  cases r with
  | some sid => rfl
  | none => rfl

/-- Witness for `check_and_reserve_behavior` at a sender already at the
limit. -/
theorem check_and_reserve_behavior_witness :
    ((check_rate_limit { daily_limit := 1, enable_broadcast := true, delivery_confirmation := false }
        { daily_counts := [("alice", 1)], last_reset := ⟨0, 0⟩, message_history := [] } "alice" =
          true ↔
        lookupCount [("alice", 1)] "alice" < 1) ∧
      (¬ lookupCount [("alice", 1)] "alice" < 1 →
        (handle_sms_command
          { daily_limit := 1, enable_broadcast := true, delivery_confirmation := false }
          { daily_counts := [("alice", 1)], last_reset := ⟨0, 0⟩, message_history := [] }
          "alice" "SMS +15551234567 hi" (some "SM1") ⟨0, 1⟩).fst =
          { daily_counts := [("alice", 1)], last_reset := ⟨0, 0⟩, message_history := [] } ∧
        hasCarrierSend (handle_sms_command
          { daily_limit := 1, enable_broadcast := true, delivery_confirmation := false }
          { daily_counts := [("alice", 1)], last_reset := ⟨0, 0⟩, message_history := [] }
          "alice" "SMS +15551234567 hi" (some "SM1") ⟨0, 1⟩).snd = false) ∧
      (lookupCount [("alice", 1)] "alice" < 1 →
        (handle_sms_command
          { daily_limit := 1, enable_broadcast := true, delivery_confirmation := false }
          { daily_counts := [("alice", 1)], last_reset := ⟨0, 0⟩, message_history := [] }
          "alice" "SMS +15551234567 hi" (some "SM1") ⟨0, 1⟩).fst.daily_counts =
          (match (some "SM1" : Option String) with
            | some _ => incrCount [("alice", 1)] "alice"
            | none => [("alice", 1)]))) :=
  check_and_reserve_behavior
    { daily_limit := 1, enable_broadcast := true, delivery_confirmation := false }
    { daily_counts := [("alice", 1)], last_reset := ⟨0, 0⟩, message_history := [] }
    "alice" "SMS +15551234567 hi" (some "SM1") ⟨0, 1⟩ (by decide) (by decide)

/-- Claim C4: over any sequence of SMS commands and daily resets, a
sender's `count_today` never exceeds `daily_limit` once it is below it
(in particular starting from the empty counts); and once the limit is
reached a further SMS command leaves the state unchanged and performs no
carrier send. -/
theorem counts_never_exceed_limit :
    (∀ (cfg : GatewayConfig) (s : GatewayState) (ops : List GwOp) (x : String),
        lookupCount s.daily_counts x ≤ cfg.daily_limit →
        lookupCount (run_ops cfg s ops).daily_counts x ≤ cfg.daily_limit) ∧
    (∀ (cfg : GatewayConfig) (s : GatewayState) (sender msg : String) (r : Option String)
        (now : Timestamp), cfg.daily_limit ≤ lookupCount s.daily_counts sender →
        (handle_sms_command cfg s sender msg r now).fst = s ∧
        hasCarrierSend (handle_sms_command cfg s sender msg r now).snd = false) :=
  ⟨fun cfg s ops x h => run_ops_count_le cfg ops s x h,
   fun cfg s sender msg r now h => handle_sms_command_at_limit cfg s sender msg r now h⟩

/-- Witness for `counts_never_exceed_limit`: three successful sends with
`daily_limit = 2` leave the count at most 2, and a command at the limit
changes nothing and sends nothing. -/
theorem counts_never_exceed_limit_witness :
    lookupCount (run_ops
        { daily_limit := 2, enable_broadcast := true, delivery_confirmation := false }
        { daily_counts := [], last_reset := ⟨0, 0⟩, message_history := [] }
        [GwOp.smsCmd "A" "SMS +15551234567 hi" (some "S1") ⟨0, 1⟩,
         GwOp.smsCmd "A" "SMS +15551234567 hi" (some "S2") ⟨0, 2⟩,
         GwOp.smsCmd "A" "SMS +15551234567 hi" (some "S3") ⟨0, 3⟩]).daily_counts "A" ≤ 2 ∧
    ((handle_sms_command
        { daily_limit := 2, enable_broadcast := true, delivery_confirmation := false }
        { daily_counts := [("A", 2)], last_reset := ⟨0, 0⟩, message_history := [] }
        "A" "SMS +15551234567 hi" (some "S4") ⟨0, 4⟩).fst =
      { daily_counts := [("A", 2)], last_reset := ⟨0, 0⟩, message_history := [] } ∧
      hasCarrierSend (handle_sms_command
        { daily_limit := 2, enable_broadcast := true, delivery_confirmation := false }
        { daily_counts := [("A", 2)], last_reset := ⟨0, 0⟩, message_history := [] }
        "A" "SMS +15551234567 hi" (some "S4") ⟨0, 4⟩).snd = false) :=
  ⟨counts_never_exceed_limit.1
      { daily_limit := 2, enable_broadcast := true, delivery_confirmation := false }
      { daily_counts := [], last_reset := ⟨0, 0⟩, message_history := [] }
      [GwOp.smsCmd "A" "SMS +15551234567 hi" (some "S1") ⟨0, 1⟩,
       GwOp.smsCmd "A" "SMS +15551234567 hi" (some "S2") ⟨0, 2⟩,
       GwOp.smsCmd "A" "SMS +15551234567 hi" (some "S3") ⟨0, 3⟩] "A" (by decide),
   counts_never_exceed_limit.2
      { daily_limit := 2, enable_broadcast := true, delivery_confirmation := false }
      { daily_counts := [("A", 2)], last_reset := ⟨0, 0⟩, message_history := [] }
      "A" "SMS +15551234567 hi" (some "S4") ⟨0, 4⟩ (by decide)⟩

/-- Claim C8, counterexample: Python's `PHONE_REGEX.match` is wider than
the claimed pattern "optional leading +, then 2 to 15 digits not starting
with 0": `$` also matches before one trailing newline and `\d` matches
any Unicode decimal digit, so the validator accepts `"12\n"` and
`"1٣"` although neither matches the pattern; consequently at the
command `SMS 1٣ hi` the router does not reply with an error — it
proceeds to the carrier send and consumes the sender's quota. -/
theorem phone_validator_beyond_pattern :
    phone_regex_match "12\n" = true ∧ ¬ phone_pattern_spec "12\n" ∧
    phone_regex_match "1٣" = true ∧ ¬ phone_pattern_spec "1٣" ∧
    hasCarrierSend (handle_sms_command
        { daily_limit := 50, enable_broadcast := true, delivery_confirmation := false }
        { daily_counts := [], last_reset := ⟨0, 0⟩, message_history := [] }
        "alice" "SMS 1٣ hi" (some "SM1") ⟨0, 1⟩).snd = true ∧
    lookupCount (handle_sms_command
        { daily_limit := 50, enable_broadcast := true, delivery_confirmation := false }
        { daily_counts := [], last_reset := ⟨0, 0⟩, message_history := [] }
        "alice" "SMS 1٣ hi" (some "SM1") ⟨0, 1⟩).fst.daily_counts "alice" = 1 := by
  refine ⟨by decide, ?_, by decide, ?_, by decide, by decide⟩
  · intro h
    obtain ⟨-, -, h3, -⟩ := h
    exact absurd h3 (by decide)
  · intro h
    obtain ⟨-, -, h3, -⟩ := h
    exact absurd h3 (by decide)

/-- Claim C8 (amended): for every `SMS` command with at least three tokens
whose phone token fails `PHONE_REGEX` (under Python's semantics: optional
leading `+`, an ASCII digit `1`-`9`, then 1 to 14 Unicode decimal digits,
optionally followed by one trailing newline), the handler replies with an
error naming the offending phone number, performs no carrier send and
leaves the state (and hence every sender's count) unchanged; the
validator's language strictly contains the claimed pattern "optional
leading +, then 2 to 15 digits not starting with 0" (containment proved
here, strictness by the counterexample). -/
theorem invalid_phone_rejected :
    (∀ (cfg : GatewayConfig) (s : GatewayState) (sender msg : String) (r : Option String)
        (now : Timestamp), 3 ≤ (pySplit2 msg).length →
        phone_regex_match ((pySplit2 msg).getD 1 "") = false →
        handle_sms_command cfg s sender msg r now =
          (s, [Effect.meshSend sender
            ("❌ Invalid phone number format: " ++ (pySplit2 msg).getD 1 "")])) ∧
    ∀ p : String, phone_pattern_spec p → phone_regex_match p = true := by
  refine ⟨fun cfg s sender msg r now hlen hph => ?_, phone_pattern_spec_sub⟩
  simp only [handle_sms_command]
  rw [if_neg (by omega), if_pos hph]

/-- Witness for `invalid_phone_rejected` at the command `SMS 0123 hi` and
the pattern-matching phone number `+15551234567`. -/
theorem invalid_phone_rejected_witness :
    (handle_sms_command
        { daily_limit := 50, enable_broadcast := true, delivery_confirmation := false }
        { daily_counts := [], last_reset := ⟨0, 0⟩, message_history := [] }
        "alice" "SMS 0123 hi" none ⟨0, 0⟩ =
      ({ daily_counts := [], last_reset := ⟨0, 0⟩, message_history := [] },
        [Effect.meshSend "alice"
          ("❌ Invalid phone number format: " ++ (pySplit2 "SMS 0123 hi").getD 1 "")])) ∧
    phone_regex_match "+15551234567" = true :=
  ⟨invalid_phone_rejected.1
      { daily_limit := 50, enable_broadcast := true, delivery_confirmation := false }
      { daily_counts := [], last_reset := ⟨0, 0⟩, message_history := [] }
      "alice" "SMS 0123 hi" none ⟨0, 0⟩ (by decide) (by decide),
   invalid_phone_rejected.2 "+15551234567"
     ⟨by decide, by decide, by decide, by decide⟩⟩

end MeshcoreSMS
